import Mathlib

/-!
Verification of the draft-assistant web server (Express/Node source).

Shallow embedding of the pure logic and of the effectful token/settings
flow of the repository:

* `suggestBestPick`            — src/unnamed/part_002 lines 129-135 (identical
                                 copies in src/app.js and src/unnamed/part_001);
* the `/suggest` handler       — src/unnamed/part_002 lines 199-208;
* the FantasyPros CSV parsing  — src/services/fantasypros.js lines 13-33;
* the `/auth` URL construction — src/unnamed/part_002 lines 143-152 and the
                                 earlier draft src/app.js lines 42-50;
* `refreshTokens`              — src/unnamed/part_002 lines 39-65;
* `getLeagueSettings`          — src/unnamed/part_002 lines 71-124.

Effectful code is embedded as explicit state passing over an `AppState`
(the in-memory league cache plus the two JSON files) together with an
environment oracle fixing the outcome of each network call, and a `Trace`
counting the I/O operations a call performs.  JavaScript string truthiness
(the empty string is falsy) is modelled explicitly wherever the source
relies on it.
-/

/-! ### Draft picker (src/unnamed/part_002 lines 129-135) -/

/-- The body of `suggestBestPick`:
`availablePlayers.find(p => !currentTeam.includes(p))` followed by
`suggestion || 'No player available'`.  JavaScript `find` yields `undefined`
(modelled `none`) when no element matches, and the `||` sends both
`undefined` and the falsy empty string to the sentinel. -/
def suggestBestPick (currentTeam availablePlayers : List String) : String :=
  match availablePlayers.find? (fun p => !(currentTeam.contains p)) with
  | some suggestion => if suggestion = "" then "No player available" else suggestion
  | none => "No player available"

/-- Modelled from the spec: the first element of `pool` that is not present
in `team` under exact string equality (the value the spec says
`suggestBestPick` returns when the pool is not exhausted). -/
def specFirstPick (team pool : List String) : Option String :=
  pool.find? (fun p => decide (p ∉ team))

/-- The whitespace class of JavaScript `String.prototype.trim` (restricted
to the ASCII characters the inputs here can contain). -/
def isJsWhitespace (c : Char) : Bool :=
  c = ' ' || c = '\t' || c = '\n' || c = '\r' || c = '\x0b' || c = '\x0c'

/-- JavaScript `s.trim()`: strip leading and trailing whitespace. -/
def jsTrim (s : String) : String :=
  ⟨(((s.data.dropWhile isJsWhitespace).reverse).dropWhile isJsWhitespace).reverse⟩

/-- Split a character list at every occurrence of `sep`; always returns at
least one (possibly empty) group, exactly like JavaScript
`s.split(sep)` for a one-character separator. -/
def splitOnChar (sep : Char) : List Char → List (List Char)
  | [] => [[]]
  | c :: rest =>
    match splitOnChar sep rest with
    | [] => [[]]
    | grp :: grps => if c = sep then [] :: grp :: grps else (c :: grp) :: grps

/-- JavaScript `s.split(sep)` for a one-character separator. -/
def jsSplit (sep : Char) (s : String) : List String :=
  (splitOnChar sep s.data).map (fun cs => ⟨cs⟩)

/-- The query-string splitting of the `/suggest` handler
(src/unnamed/part_002 lines 199-208): a missing or empty (falsy) query value
gives `[]`, otherwise the value is split on commas and each piece trimmed. -/
def suggestQueryList (q : Option String) : List String :=
  match q with
  | none => []
  | some t => if t = "" then [] else (jsSplit ',' t).map jsTrim

/-- The `/suggest` handler: the `pick` field of the JSON response, as a
function of the raw `team` and `pool` query parameters. -/
def suggestHandler (team pool : Option String) : String :=
  suggestBestPick (suggestQueryList team) (suggestQueryList pool)

/-! ### FantasyPros CSV parsing (src/services/fantasypros.js lines 13-33) -/

/-- One row of the parsed rankings: `\x7b rank, player \x7d`. -/
structure RankingEntry where
  rank : Int
  player : String
  deriving DecidableEq, Repr

/-- JavaScript `parseInt(s, 10)`: skip surrounding whitespace, accept an
optional sign, then read the longest prefix of decimal digits; `NaN`
(modelled `none`) when that prefix is empty.  Trailing junk is ignored. -/
def jsParseInt10 (s : String) : Option Int :=
  match (jsTrim s).data with
  | [] => none
  | c :: rest =>
    let signed : Bool × List Char :=
      if c = '-' then (true, rest)
      else if c = '+' then (false, rest)
      else (false, c :: rest)
    let digits := signed.2.takeWhile Char.isDigit
    if digits.isEmpty then none
    else
      let n : Nat := digits.foldl (fun a d => a * 10 + (d.toNat - 48)) 0
      some (if signed.1 then -(n : Int) else (n : Int))

/-- The body of the `for` loop of `fetchPPRRankings` applied to one raw
line: trim the line, skip it when blank, split on commas, `parseInt` the
first column and trim the second, and keep the row only when the rank is a
number and the player name is truthy (present and non-empty). -/
def parseRankLine (raw : String) : Option RankingEntry :=
  if jsTrim raw = "" then none
  else
    match jsParseInt10 ((jsSplit ',' (jsTrim raw)).headD "") with
    | none => none
    | some rank =>
      match ((jsSplit ',' (jsTrim raw))[1]?).map jsTrim with
      | none => none
      | some player => if player = "" then none else some ⟨rank, player⟩

/-- The loop of `fetchPPRRankings` over the data lines, pushing surviving
rows in file order. -/
def rankingsLoop : List String → List RankingEntry
  | [] => []
  | l :: rest =>
    match parseRankLine l with
    | some e => e :: rankingsLoop rest
    | none => rankingsLoop rest

/-- The CSV-to-records part of `fetchPPRRankings`: split the response text
on newlines and run the loop from index 1 (the first line is the header). -/
def parsePPRRankingsCsv (csv : String) : List RankingEntry :=
  match jsSplit '\n' csv with
  | [] => []
  | _header :: dataLines => rankingsLoop dataLines

/-! ### Authorization URL (src/unnamed/part_002 lines 143-152, src/app.js lines 42-50) -/

/-- Characters `querystring.stringify` leaves unescaped (the
`encodeURIComponent` unreserved set restricted to what the configuration
strings can exercise; all characters appearing in the fixed parameter
values below are unreserved). -/
def qsUnreserved (c : Char) : Bool :=
  c.isAlphanum || c = '-' || c = '_' || c = '.' || c = '~' ||
  c = '!' || c = '*' || c = '\'' || c = '(' || c = ')'

/-- Upper-case hexadecimal digit of `n % 16`. -/
def hexDigit (n : Nat) : Char :=
  let m := n % 16
  if m < 10 then Char.ofNat (48 + m) else Char.ofNat (55 + m)

/-- UTF-8 bytes of a code point, as natural numbers. -/
def utf8Bytes (n : Nat) : List Nat :=
  if n < 128 then [n]
  else if n < 2048 then [192 + n / 64, 128 + n % 64]
  else if n < 65536 then [224 + n / 4096, 128 + (n / 64) % 64, 128 + n % 64]
  else [240 + n / 262144, 128 + (n / 4096) % 64, 128 + (n / 64) % 64, 128 + n % 64]

/-- Percent-encoding of one character. -/
def qsEscapeChar (c : Char) : List Char :=
  if qsUnreserved c then [c]
  else (utf8Bytes c.toNat).flatMap (fun b => ['%', hexDigit (b / 16), hexDigit b])

/-- `querystring.escape` applied to a value. -/
def qsEscape (s : String) : String :=
  ⟨s.data.flatMap qsEscapeChar⟩

/-- `querystring.stringify`: `k=v` pairs joined by `&`, keys and values
escaped, in insertion order. -/
def qsStringify : List (String × String) → String
  | [] => ""
  | [kv] => qsEscape kv.1 ++ "=" ++ qsEscape kv.2
  | kv :: rest => qsEscape kv.1 ++ "=" ++ qsEscape kv.2 ++ "&" ++ qsStringify rest

/-- The parameter object of the `/auth` handler of src/unnamed/part_002
(lines 143-152), in insertion order. -/
def authQueryParams (clientId redirectUri : String) : List (String × String) :=
  [("client_id", clientId), ("redirect_uri", redirectUri),
   ("response_type", "code"), ("scope", "fspt-r"), ("state", "secureRandom")]

/-- The parameter object of the `/auth` handler of the earlier draft
src/app.js (lines 42-50): no `scope`, no `state`. -/
def authQueryParamsDraft (clientId redirectUri : String) : List (String × String) :=
  [("client_id", clientId), ("redirect_uri", redirectUri),
   ("response_type", "code"), ("language", "en-us")]

/-- The redirect target of `GET /auth` in src/unnamed/part_002.  The `req`
argument models the incoming request, which the handler (`(_req, res)`)
ignores: the URL depends only on the configuration. -/
def authRedirectLocation (clientId redirectUri : String) (_req : Nat) : String :=
  "https://api.login.yahoo.com/oauth2/request_auth?" ++
    qsStringify (authQueryParams clientId redirectUri)

/-- The redirect target of `GET /auth` in the draft src/app.js. -/
def authRedirectLocationDraft (clientId redirectUri : String) (_req : Nat) : String :=
  "https://api.login.yahoo.com/oauth2/request_auth?" ++
    qsStringify (authQueryParamsDraft clientId redirectUri)

/-! ### Token lifecycle and league-settings cache (src/unnamed/part_002 lines 39-124)

The effectful flow is embedded as explicit state passing.  `AppState`
holds the shared mutable state: the in-memory `leagueCache`, the content
of `tokens.json` and the content of `settings.json`.  An `Env` oracle
fixes the outcome of the (at most) two upstream GETs and of the refresh
POST, and every run returns a `Trace` counting each I/O operation the
source performs. -/

/-- An OAuth token pair as stored in `tokens.json`. -/
structure TokenSet where
  access_token : String
  refresh_token : String
  deriving DecidableEq, Repr

/-- The state of the `tokens.json` file: absent, present but not valid
JSON, or holding a well-formed token set.  `JSON.parse(readFileSync(...))`
succeeds exactly in the `stored` case. -/
inductive TokenFile where
  | missing
  | corrupt
  | stored (tokens : TokenSet)
  deriving DecidableEq, Repr

/-- An opaque league-settings document (the object the code extracts and
serializes); its identity is all the claims need. -/
structure SettingsObj where
  payload : String
  deriving DecidableEq, Repr

/-- The value of a `settings` property on an element of the league array:
a JSON array of settings objects or a single object.  The source asks
`Array.isArray` to distinguish the two.  An absent (or falsy) property is
`Option.none` one level up. -/
inductive SettingsField where
  | arr (elems : List SettingsObj)
  | obj (s : SettingsObj)
  deriving DecidableEq, Repr

/-- One element of `data.fantasy_content.league`; only its `settings`
property matters to the source.  `none` models a missing property, which
is falsy; any present array or object is truthy (a JavaScript array is
truthy even when empty). -/
structure LeagueElem where
  settings : Option SettingsField
  deriving DecidableEq, Repr

/-- The response envelope of a successful settings GET:
`data.fantasy_content.league` is an array of elements. -/
structure YahooData where
  league : List LeagueElem
  deriving DecidableEq, Repr

/-- Outcome of one upstream GET: a 2xx with a parsed body, an HTTP error
carrying `err.response.status`, or a transport error with no response. -/
inductive HttpGetResult where
  | ok (data : YahooData)
  | httpErr (status : Nat)
  | netErr
  deriving DecidableEq, Repr

/-- Outcome of the refresh POST to the token endpoint. -/
inductive RefreshNetResult where
  | ok (newTokens : TokenSet)
  | err
  deriving DecidableEq, Repr

/-- Environment oracle for one `getLeagueSettings` call: the results of
the first GET, of the (at most one) retried GET and of the refresh POST. -/
structure Env where
  get1 : HttpGetResult
  get2 : HttpGetResult
  refreshNet : RefreshNetResult
  deriving DecidableEq, Repr

/-- The shared mutable state of the process. -/
structure AppState where
  leagueCache : List (String × SettingsObj)
  tokenFile : TokenFile
  settingsFile : Option SettingsObj
  deriving DecidableEq, Repr

/-- I/O operation counts of one run. -/
structure Trace where
  tokenFileReads : Nat := 0
  tokenFileWrites : Nat := 0
  settingsFileWrites : Nat := 0
  upstreamGets : Nat := 0
  tokenEndpointPosts : Nat := 0
  refreshCalls : Nat := 0
  deriving DecidableEq, Repr

/-- Pointwise sum of traces. -/
def Trace.add (t u : Trace) : Trace :=
  ⟨t.tokenFileReads + u.tokenFileReads, t.tokenFileWrites + u.tokenFileWrites,
   t.settingsFileWrites + u.settingsFileWrites, t.upstreamGets + u.upstreamGets,
   t.tokenEndpointPosts + u.tokenEndpointPosts, t.refreshCalls + u.refreshCalls⟩

/-- Ways `refreshTokens` can throw: the re-read of `tokens.json` fails, or
the POST to the token endpoint fails (both are rethrown unchanged). -/
inductive RefreshError where
  | readError
  | netError
  deriving DecidableEq, Repr

/-- Result of one `refreshTokens` run: the returned value or the rethrown
error, the state of `tokens.json` afterwards, and the I/O trace. -/
structure RefreshOut where
  result : Except RefreshError TokenSet
  tokenFile : TokenFile
  trace : Trace
  deriving Repr

/-- `refreshTokens` (src/unnamed/part_002 lines 39-65): read and parse
`tokens.json`, POST the refresh request, write the new token set back to
`tokens.json`, and return it; any failure is logged and rethrown with the
file left as it was. -/
def refreshTokens (file : TokenFile) (net : RefreshNetResult) : RefreshOut :=
  match file with
  | .stored _old =>
    match net with
    | .ok newTokens =>
      ⟨.ok newTokens, .stored newTokens,
       { tokenFileReads := 1, tokenEndpointPosts := 1, tokenFileWrites := 1 }⟩
    | .err => ⟨.error .netError, file, { tokenFileReads := 1, tokenEndpointPosts := 1 }⟩
  | .missing => ⟨.error .readError, .missing, { tokenFileReads := 1 }⟩
  | .corrupt => ⟨.error .readError, .corrupt, { tokenFileReads := 1 }⟩

/-- The distinguishable ways `getLeagueSettings` can fail.
`notAuthenticated` is the wrapped `Could not read tokens.json` error;
`upstreamHttp`/`upstreamNet` are propagated axios errors;
`refreshFailed` is the error rethrown out of `refreshTokens`;
`noSettingsInResponse` is the `No settings in response from Yahoo API`
error; `settingsWriteTypeError` is the TypeError thrown by
`fs.writeFileSync('settings.json', undefined)` when the located settings
property is an empty array (so `settingsNode.settings[0]` is `undefined`
and `JSON.stringify` of it is not a string). -/
inductive GLSError where
  | notAuthenticated
  | upstreamHttp (status : Nat)
  | upstreamNet
  | refreshFailed (e : RefreshError)
  | noSettingsInResponse
  | settingsWriteTypeError
  deriving DecidableEq, Repr

/-- Result of one `getLeagueSettings` run. -/
structure GLSOut where
  result : Except GLSError SettingsObj
  state : AppState
  trace : Trace
  deriving Repr

/-- `leagueArr.find(el => el.settings)` followed by reading its
`settings` property: the first truthy `settings` value in the league
array, if any. -/
def findSettingsField (data : YahooData) : Option SettingsField :=
  (data.league.find? (fun el => el.settings.isSome)).bind (fun el => el.settings)

/-- `Array.isArray(settingsNode.settings) ? settingsNode.settings[0] :
settingsNode.settings` — `none` when the array is empty (JavaScript
`undefined`). -/
def extractSettingsObj : SettingsField → Option SettingsObj
  | .arr elems => elems.head?
  | .obj s => some s

/-- The tail of `getLeagueSettings` on a 2xx response (src/unnamed/part_002
lines 104-124): locate the settings node, extract the object, write
`settings.json`, populate the cache and return the object. -/
def settleResponse (σ : AppState) (leagueKey : String) (data : YahooData)
    (tr : Trace) : GLSOut :=
  match findSettingsField data with
  | none => ⟨.error .noSettingsInResponse, σ, tr⟩
  | some sf =>
    match extractSettingsObj sf with
    | none => ⟨.error .settingsWriteTypeError, σ, tr⟩
    | some s =>
      ⟨.ok s,
       { σ with settingsFile := some s, leagueCache := (leagueKey, s) :: σ.leagueCache },
       Trace.add tr { settingsFileWrites := 1 }⟩

/-- The I/O performed before the refresh returns control: the initial
token-file read, the first GET, the refresh run's own I/O and the
`refreshTokens` invocation itself. -/
def traceAfterRefresh (rtr : Trace) : Trace :=
  Trace.add (Trace.add { tokenFileReads := 1, upstreamGets := 1 } rtr) { refreshCalls := 1 }

/-- The trace after the single retried GET. -/
def traceAfterRetry (rtr : Trace) : Trace :=
  Trace.add (traceAfterRefresh rtr) { upstreamGets := 1 }

/-- The 401 branch of `getLeagueSettings` (src/unnamed/part_002 lines
92-102 and onward), given the completed `refreshTokens` run `r`: a refresh
failure is rethrown; otherwise the GET is retried exactly once and its
outcome — error or settings extraction — is final. -/
def retryAfterRefresh (σ : AppState) (env : Env) (leagueKey : String) (r : RefreshOut) : GLSOut :=
  match r.result with
  | .error e =>
    ⟨.error (.refreshFailed e), { σ with tokenFile := r.tokenFile }, traceAfterRefresh r.trace⟩
  | .ok _newTokens =>
    match env.get2 with
    | .ok data =>
      settleResponse { σ with tokenFile := r.tokenFile } leagueKey data (traceAfterRetry r.trace)
    | .httpErr status2 =>
      ⟨.error (.upstreamHttp status2), { σ with tokenFile := r.tokenFile },
       traceAfterRetry r.trace⟩
    | .netErr =>
      ⟨.error .upstreamNet, { σ with tokenFile := r.tokenFile }, traceAfterRetry r.trace⟩

/-- `getLeagueSettings` (src/unnamed/part_002 lines 71-124): cache
short-circuit, token load, authenticated GET, single refresh-and-retry on
a 401, settings extraction, persistence and caching. -/
def getLeagueSettings (σ : AppState) (env : Env) (leagueKey : String) : GLSOut :=
  match σ.leagueCache.lookup leagueKey with
  | some cached => ⟨.ok cached, σ, {}⟩
  | none =>
    match σ.tokenFile with
    | .missing => ⟨.error .notAuthenticated, σ, { tokenFileReads := 1 }⟩
    | .corrupt => ⟨.error .notAuthenticated, σ, { tokenFileReads := 1 }⟩
    | .stored _tokens =>
      match env.get1 with
      | .ok data => settleResponse σ leagueKey data { tokenFileReads := 1, upstreamGets := 1 }
      | .netErr => ⟨.error .upstreamNet, σ, { tokenFileReads := 1, upstreamGets := 1 }⟩
      | .httpErr status =>
        if status = 401 then
          retryAfterRefresh σ env leagueKey (refreshTokens σ.tokenFile env.refreshNet)
        else ⟨.error (.upstreamHttp status), σ, { tokenFileReads := 1, upstreamGets := 1 }⟩

/-! ### Concrete fixtures used by the witness theorems -/

/-- A stored token pair. -/
def tsOld : TokenSet := ⟨"old-access", "old-refresh"⟩

/-- The token pair returned by a successful refresh. -/
def tsNew : TokenSet := ⟨"new-access", "new-refresh"⟩

/-- A concrete settings document. -/
def sObj : SettingsObj := ⟨"league settings payload"⟩

/-- A well-formed envelope: the settings node is the second element and
wraps the document in a one-element array, as the Yahoo response does. -/
def dataGood : YahooData := ⟨[⟨none⟩, ⟨some (.arr [sObj])⟩]⟩

/-- An envelope whose league array has a `settings` property holding an
empty array. -/
def dataEmptyArr : YahooData := ⟨[⟨some (.arr [])⟩]⟩

/-- An envelope with no settings node at all. -/
def dataNoSettings : YahooData := ⟨[⟨none⟩]⟩

/-- Empty cache, a stored token pair, no settings file. -/
def stBase : AppState := ⟨[], .stored tsOld, none⟩

/-- Empty cache and a missing `tokens.json`. -/
def stMissing : AppState := ⟨[], .missing, none⟩

/-- A cache already holding settings for `nfl.l.670188`. -/
def stCached : AppState := ⟨[("nfl.l.670188", sObj)], .stored tsOld, none⟩

/-- Both GETs answer 401; the refresh succeeds. -/
def env401Twice : Env := ⟨.httpErr 401, .httpErr 401, .ok tsNew⟩

/-- First GET answers 401, the retry succeeds. -/
def env401ThenOk : Env := ⟨.httpErr 401, .ok dataGood, .ok tsNew⟩

/-- The first GET succeeds with a well-formed envelope. -/
def envOk : Env := ⟨.ok dataGood, .netErr, .err⟩

/-- The first GET succeeds with an empty-array settings node. -/
def envEmptyArr : Env := ⟨.ok dataEmptyArr, .netErr, .err⟩

/-! ### Helper lemmas -/

/-- The predicate the source passes to `find` agrees with the spec-side
membership test: `!currentTeam.includes(p)` is `p ∉ team`. -/
theorem findAvail_eq_specFirstPick (team pool : List String) :
    (pool.find? fun p => !(team.contains p)) = specFirstPick team pool := by
  unfold specFirstPick
  congr 1
  funext p
  by_cases h : p ∈ team <;> simp [h]

/-- The rankings loop keeps exactly the rows `parseRankLine` accepts, in
order. -/
theorem rankingsLoop_eq_filterMap (ls : List String) :
    rankingsLoop ls = ls.filterMap parseRankLine := by
  induction ls with
  | nil => rfl
  | cons l rest ih =>
    unfold rankingsLoop
    cases h : parseRankLine l <;> simp [h, ih]

/-! ### C1 — the draft picker returns the first available pool element -/

/-- C1 counterexample: with `team = []` and `pool = [""]` the first element
of the pool not present in the team is the empty string, yet
`suggestBestPick` returns the sentinel instead of it (the `||` fallback
fires on the falsy empty string), so the claim as stated fails. -/
theorem suggestBestPick_empty_string_counterexample :
    specFirstPick [] [""] = some "" ∧
    suggestBestPick [] [""] = "No player available" ∧
    "No player available" ≠ "" := by
  refine ⟨by decide, by decide, by decide⟩

/-- C1 (amended): `suggestBestPick(team, pool)` returns the first element
of `pool` not present in `team` provided that element is non-empty; it
returns the sentinel when the pool is empty, when every pool element is on
the team, and also when the first available element is the empty string. -/
theorem suggestBestPick_first_available (team pool : List String) :
    (specFirstPick team pool = none →
      suggestBestPick team pool = "No player available") ∧
    (specFirstPick team pool = some "" →
      suggestBestPick team pool = "No player available") ∧
    (∀ p, specFirstPick team pool = some p → p ≠ "" →
      suggestBestPick team pool = p) := by
  refine ⟨fun h => ?_, fun h => ?_, fun p h hp => ?_⟩
  · unfold suggestBestPick
    rw [findAvail_eq_specFirstPick, h]
  · unfold suggestBestPick
    rw [findAvail_eq_specFirstPick, h]
    simp
  · unfold suggestBestPick
    rw [findAvail_eq_specFirstPick, h]
    simp [hp]

/-- C1 witness: the spec's own example, `suggestBestPick(["A"], ["A","B","C"])`
returns `"B"`. -/
theorem suggestBestPick_first_available_witness :
    suggestBestPick ["A"] ["A", "B", "C"] = "B" :=
  (suggestBestPick_first_available ["A"] ["A", "B", "C"]).2.2 "B" (by decide) (by decide)

/-! ### C9 — an empty-string pool entry is indistinguishable from exhaustion -/

/-- C9: when the first pool element not on the team is the empty string,
`suggestBestPick` returns the sentinel, the same answer as for an exhausted
(or empty) pool; and the situation is reachable through `/suggest`, where
comma-splitting and trimming of the query produce empty entries (pool
query `"A,"` against team `"A"` answers exactly like pool query `"A"`). -/
theorem suggestBestPick_empty_string_indistinguishable :
    (∀ team pool, specFirstPick team pool = some "" →
      suggestBestPick team pool = "No player available" ∧
      suggestBestPick team pool = suggestBestPick team []) ∧
    suggestHandler (some "A") (some "A,") = "No player available" ∧
    suggestHandler (some "A") (some "A") = "No player available" := by
  refine ⟨fun team pool h => ⟨?_, ?_⟩, by decide, by decide⟩
  · unfold suggestBestPick
    rw [findAvail_eq_specFirstPick, h]
    simp
  · unfold suggestBestPick
    rw [findAvail_eq_specFirstPick, h]
    simp [specFirstPick]

/-- C9 witness: the empty-string case at a concrete input. -/
theorem suggestBestPick_empty_string_indistinguishable_witness :
    suggestBestPick [] [""] = "No player available" ∧
    suggestBestPick [] [""] = suggestBestPick [] [] :=
  suggestBestPick_empty_string_indistinguishable.1 [] [""] (by decide)

/-! ### C5 — the FantasyPros CSV parser -/

/-- C5: the ranking parser drops the first (header) line and maps every
remaining line through the per-line rule, in input order; blank lines, lines
whose first column fails to parse as an integer and lines whose second
column is missing or trims to the empty string yield no record; every
surviving record carries the parsed rank and the trimmed name; and the
spec's concrete example parses as stated. -/
theorem fetchPPRRankings_csv_parsing :
    (∀ csv, parsePPRRankingsCsv csv = ((jsSplit '\n' csv).drop 1).filterMap parseRankLine) ∧
    (∀ l, jsTrim l = "" → parseRankLine l = none) ∧
    (∀ l, jsParseInt10 ((jsSplit ',' (jsTrim l)).headD "") = none → parseRankLine l = none) ∧
    (∀ l, ((jsSplit ',' (jsTrim l))[1]?).map jsTrim = none ∨
        ((jsSplit ',' (jsTrim l))[1]?).map jsTrim = some "" → parseRankLine l = none) ∧
    (∀ l e, parseRankLine l = some e →
      jsParseInt10 ((jsSplit ',' (jsTrim l)).headD "") = some e.rank ∧
      ((jsSplit ',' (jsTrim l))[1]?).map jsTrim = some e.player ∧ e.player ≠ "") ∧
    parsePPRRankingsCsv "rank,player\n1,Player One\n,BadRow\n2,Player Two\n" =
      [⟨1, "Player One"⟩, ⟨2, "Player Two"⟩] := by
  refine ⟨fun csv => ?_, fun l h => ?_, fun l h => ?_, fun l h => ?_, fun l e h => ?_, by decide⟩
  · unfold parsePPRRankingsCsv
    cases h : jsSplit '\n' csv with
    | nil => simp [h]
    | cons hd tl => simp [h, rankingsLoop_eq_filterMap]
  · unfold parseRankLine
    rw [if_pos h]
  · unfold parseRankLine
    by_cases hb : jsTrim l = ""
    · rw [if_pos hb]
    · rw [if_neg hb, h]
  · unfold parseRankLine
    by_cases hb : jsTrim l = ""
    · rw [if_pos hb]
    · rw [if_neg hb]
      cases hr : jsParseInt10 ((jsSplit ',' (jsTrim l)).headD "") with
      | none => rfl
      | some r =>
        rcases h with h | h
        · rw [h]
        · rw [h]
          rfl
  · unfold parseRankLine at h
    by_cases hb : jsTrim l = ""
    · rw [if_pos hb] at h
      cases h
    · rw [if_neg hb] at h
      cases hr : jsParseInt10 ((jsSplit ',' (jsTrim l)).headD "") with
      | none => rw [hr] at h; cases h
      | some r =>
        rw [hr] at h
        cases hp : ((jsSplit ',' (jsTrim l))[1]?).map jsTrim with
        | none => rw [hp] at h; cases h
        | some p =>
          rw [hp] at h
          have h3 : (if p = "" then none else some (⟨r, p⟩ : RankingEntry)) = some e := h
          by_cases hpe : p = ""
          · rw [if_pos hpe] at h3; cases h3
          · rw [if_neg hpe] at h3
            injection h3 with h2
            subst h2
            exact ⟨rfl, rfl, hpe⟩

/-- C5 witness: a blank line and a line with an unparsable rank both yield
no record. -/
theorem fetchPPRRankings_csv_parsing_witness :
    parseRankLine "   " = none ∧ parseRankLine "x,y" = none :=
  ⟨fetchPPRRankings_csv_parsing.2.1 "   " (by decide),
   fetchPPRRankings_csv_parsing.2.2.1 "x,y" (by decide)⟩

/-! ### C8 — the authorization URL -/

/-- Dropping the head pair of a non-empty parameter list leaves a suffix of
the encoded query string. -/
theorem qsStringify_cons_data_suffix (k v : String) (r : String × String)
    (rs : List (String × String)) :
    (qsStringify (r :: rs)).data <:+ (qsStringify ((k, v) :: r :: rs)).data := by
  show (qsStringify (r :: rs)).data <:+
    ((qsEscape k ++ "=" ++ qsEscape v ++ "&") ++ qsStringify (r :: rs)).data
  rw [String.data_append]
  exact List.suffix_append _ _

/-- The three fixed parameters form a suffix of the part_002 authorization
URL whatever the configuration is. -/
theorem authRedirectLocation_qs_suffix (cid ruri : String) (req : Nat) :
    (qsStringify [("response_type", "code"), ("scope", "fspt-r"),
      ("state", "secureRandom")]).data <:+ (authRedirectLocation cid ruri req).data := by
  have h1 := qsStringify_cons_data_suffix "redirect_uri" ruri ("response_type", "code")
    [("scope", "fspt-r"), ("state", "secureRandom")]
  have h2 := qsStringify_cons_data_suffix "client_id" cid ("redirect_uri", ruri)
    [("response_type", "code"), ("scope", "fspt-r"), ("state", "secureRandom")]
  have h3 : (qsStringify (authQueryParams cid ruri)).data <:+
      (authRedirectLocation cid ruri req).data := by
    unfold authRedirectLocation
    rw [String.data_append]
    exact List.suffix_append _ _
  exact (h1.trans h2).trans h3

set_option maxRecDepth 100000 in
/-- C8 counterexample: the `/auth` handler of the draft src/app.js (cited
by the claim) builds an authorization URL with no `scope` and no `state`
parameter at all, so the claim that the URL always carries the fixed
read-only scope and a CSRF state parameter fails on it. -/
theorem authUrl_draft_counterexample :
    authRedirectLocationDraft "id" "uri" 0 =
      "https://api.login.yahoo.com/oauth2/request_auth?client_id=id&redirect_uri=uri&response_type=code&language=en-us" ∧
    ¬ ("scope".data <:+: (authRedirectLocationDraft "id" "uri" 0).data) ∧
    ¬ ("state".data <:+: (authRedirectLocationDraft "id" "uri" 0).data) := by
  refine ⟨by decide, by decide, by decide⟩

set_option maxRecDepth 100000 in
/-- The two fixed key-value pairs occur inside the constant tail of the
encoded query string. -/
theorem scope_state_infix_fixed_tail :
    "scope=fspt-r".data <:+: (qsStringify [("response_type", "code"),
      ("scope", "fspt-r"), ("state", "secureRandom")]).data ∧
    "state=secureRandom".data <:+: (qsStringify [("response_type", "code"),
      ("scope", "fspt-r"), ("state", "secureRandom")]).data := by
  constructor <;> decide

/-- C8 (amended): both `/auth` handlers build the authorization URL as a
deterministic pure function of the configuration (the request is ignored
and the state value is a fixed string); the handler of
src/unnamed/part_002 always carries `scope=fspt-r` and
`state=secureRandom`, while the earlier draft in src/app.js carries
neither a scope nor a state parameter (it sends `language=en-us`
instead). -/
theorem authUrl_deterministic_scope_state :
    (∀ cid ruri r1 r2,
      authRedirectLocation cid ruri r1 = authRedirectLocation cid ruri r2) ∧
    (∀ cid ruri req,
      "scope=fspt-r".data <:+: (authRedirectLocation cid ruri req).data ∧
      "state=secureRandom".data <:+: (authRedirectLocation cid ruri req).data) ∧
    (∀ cid ruri, ("scope", "fspt-r") ∈ authQueryParams cid ruri ∧
      ("state", "secureRandom") ∈ authQueryParams cid ruri) ∧
    (∀ cid ruri r1 r2,
      authRedirectLocationDraft cid ruri r1 = authRedirectLocationDraft cid ruri r2) ∧
    (∀ cid ruri, "scope" ∉ (authQueryParamsDraft cid ruri).map Prod.fst ∧
      "state" ∉ (authQueryParamsDraft cid ruri).map Prod.fst) := by
  refine ⟨fun _ _ _ _ => rfl, fun cid ruri req => ?_,
    fun cid ruri => by simp [authQueryParams], fun _ _ _ _ => rfl,
    fun cid ruri => by simp [authQueryParamsDraft]⟩
  have hsuf := authRedirectLocation_qs_suffix cid ruri req
  exact ⟨List.IsInfix.trans scope_state_infix_fixed_tail.1 hsuf.isInfix,
    List.IsInfix.trans scope_state_infix_fixed_tail.2 hsuf.isInfix⟩

/-- C8 witness: at a concrete configuration, two different requests give
the same URL and the URL carries the scope pair. -/
theorem authUrl_deterministic_scope_state_witness :
    authRedirectLocation "id" "uri" 0 = authRedirectLocation "id" "uri" 7 ∧
    "scope=fspt-r".data <:+: (authRedirectLocation "id" "uri" 0).data :=
  ⟨authUrl_deterministic_scope_state.1 "id" "uri" 0 7,
   (authUrl_deterministic_scope_state.2.1 "id" "uri" 0).1⟩

/-! ### Lemmas about the settings flow -/

/-- Exhaustive description of `settleResponse`: no settings node gives the
malformed-response error, an empty settings array gives the write
TypeError, and a located object is written, cached under the key and
returned. -/
theorem settleResponse_cases (σ : AppState) (key : String) (data : YahooData) (tr : Trace) :
    (findSettingsField data = none ∧
      settleResponse σ key data tr = ⟨.error .noSettingsInResponse, σ, tr⟩) ∨
    (∃ sf, findSettingsField data = some sf ∧ extractSettingsObj sf = none ∧
      settleResponse σ key data tr = ⟨.error .settingsWriteTypeError, σ, tr⟩) ∨
    (∃ sf s, findSettingsField data = some sf ∧ extractSettingsObj sf = some s ∧
      settleResponse σ key data tr =
        ⟨.ok s, { σ with settingsFile := some s, leagueCache := (key, s) :: σ.leagueCache },
         Trace.add tr { settingsFileWrites := 1 }⟩) := by
  unfold settleResponse
  split
  · next hf => exact Or.inl ⟨hf, rfl⟩
  · next sf hf =>
    split
    · next he => exact Or.inr (Or.inl ⟨sf, hf, he, rfl⟩)
    · next s he => exact Or.inr (Or.inr ⟨sf, s, hf, he, rfl⟩)

/-- `settleResponse` never touches the token file and adds at most a
settings-file write to the trace it is handed. -/
theorem settleResponse_trace_inv (σ : AppState) (key : String) (data : YahooData) (tr : Trace) :
    (settleResponse σ key data tr).trace.refreshCalls = tr.refreshCalls ∧
    (settleResponse σ key data tr).trace.upstreamGets = tr.upstreamGets ∧
    (settleResponse σ key data tr).trace.tokenFileWrites = tr.tokenFileWrites ∧
    (settleResponse σ key data tr).state.tokenFile = σ.tokenFile := by
  rcases settleResponse_cases σ key data tr with ⟨_, heq⟩ | ⟨sf, _, _, heq⟩ | ⟨sf, s, _, _, heq⟩
  · rw [heq]
    exact ⟨rfl, rfl, rfl, rfl⟩
  · rw [heq]
    exact ⟨rfl, rfl, rfl, rfl⟩
  · rw [heq]
    exact ⟨Nat.add_zero _, Nat.add_zero _, Nat.add_zero _, rfl⟩

/-- `settleResponse` leaves the cache and the settings file untouched on
every error, and on success extends the cache with exactly the returned
object and writes exactly that object to the settings file. -/
theorem settleResponse_state_only (σ : AppState) (key : String) (data : YahooData) (tr : Trace) :
    (∀ e, (settleResponse σ key data tr).result = .error e →
      (settleResponse σ key data tr).state.leagueCache = σ.leagueCache ∧
      (settleResponse σ key data tr).state.settingsFile = σ.settingsFile) ∧
    (∀ s, (settleResponse σ key data tr).result = .ok s →
      (settleResponse σ key data tr).state.leagueCache = (key, s) :: σ.leagueCache ∧
      (settleResponse σ key data tr).state.settingsFile = some s) := by
  rcases settleResponse_cases σ key data tr with ⟨_, heq⟩ | ⟨sf, _, _, heq⟩ | ⟨sf, s0, _, _, heq⟩
  · rw [heq]
    exact ⟨fun e _ => ⟨rfl, rfl⟩, fun s hs => by cases hs⟩
  · rw [heq]
    exact ⟨fun e _ => ⟨rfl, rfl⟩, fun s hs => by cases hs⟩
  · rw [heq]
    refine ⟨fun e he => ?_, fun s hs => ?_⟩
    · cases he
    · injection hs with h2
      subst h2
      exact ⟨rfl, rfl⟩

/-- Reduction of `retryAfterRefresh` when the refresh succeeded and the
retried GET returned a 2xx envelope. -/
theorem retryAfterRefresh_ok_get2_ok (σ : AppState) (env : Env) (key : String)
    (r : RefreshOut) (nt : TokenSet) (data : YahooData)
    (hr : r.result = .ok nt) (h2 : env.get2 = .ok data) :
    retryAfterRefresh σ env key r =
      settleResponse { σ with tokenFile := r.tokenFile } key data (traceAfterRetry r.trace) := by
  unfold retryAfterRefresh
  rw [hr, h2]

/-- Reduction of `retryAfterRefresh` when the retried GET failed with an
HTTP status: the error is propagated as is. -/
theorem retryAfterRefresh_ok_get2_http (σ : AppState) (env : Env) (key : String)
    (r : RefreshOut) (nt : TokenSet) (status2 : Nat)
    (hr : r.result = .ok nt) (h2 : env.get2 = .httpErr status2) :
    retryAfterRefresh σ env key r =
      ⟨.error (.upstreamHttp status2), { σ with tokenFile := r.tokenFile },
       traceAfterRetry r.trace⟩ := by
  unfold retryAfterRefresh
  rw [hr, h2]

/-- `retryAfterRefresh` changes the cache and the settings file only on a
successful extraction, and then exactly as the claim describes. -/
theorem retryAfterRefresh_state_only (σ : AppState) (env : Env) (key : String) (r : RefreshOut) :
    (∀ e, (retryAfterRefresh σ env key r).result = .error e →
      (retryAfterRefresh σ env key r).state.leagueCache = σ.leagueCache ∧
      (retryAfterRefresh σ env key r).state.settingsFile = σ.settingsFile) ∧
    (∀ s, (retryAfterRefresh σ env key r).result = .ok s →
      (retryAfterRefresh σ env key r).state.leagueCache = (key, s) :: σ.leagueCache ∧
      (retryAfterRefresh σ env key r).state.settingsFile = some s) := by
  unfold retryAfterRefresh
  split
  · exact ⟨fun e _ => ⟨rfl, rfl⟩, fun s hs => by cases hs⟩
  · split
    · exact settleResponse_state_only _ key _ _
    · exact ⟨fun e _ => ⟨rfl, rfl⟩, fun s hs => by cases hs⟩
    · exact ⟨fun e _ => ⟨rfl, rfl⟩, fun s hs => by cases hs⟩

/-! ### C3 — cache hit performs no I/O -/

/-- C3: when the league key is already cached, `getLeagueSettings` returns
the cached value, leaves the state untouched and performs no I/O at all:
no token-file read, no upstream GET and no refresh (the trace is zero). -/
theorem getLeagueSettings_cache_hit_no_io (σ : AppState) (env : Env) (key : String)
    (s : SettingsObj) (h : σ.leagueCache.lookup key = some s) :
    (getLeagueSettings σ env key).result = .ok s ∧
    (getLeagueSettings σ env key).state = σ ∧
    (getLeagueSettings σ env key).trace = {} := by
  have heq : getLeagueSettings σ env key = ⟨.ok s, σ, {}⟩ := by
    unfold getLeagueSettings
    rw [h]
  rw [heq]
  exact ⟨rfl, rfl, rfl⟩

/-- C3 witness: a concrete cache hit. -/
theorem getLeagueSettings_cache_hit_no_io_witness :
    (getLeagueSettings stCached envOk "nfl.l.670188").result = .ok sObj ∧
    (getLeagueSettings stCached envOk "nfl.l.670188").state = stCached ∧
    (getLeagueSettings stCached envOk "nfl.l.670188").trace = {} :=
  getLeagueSettings_cache_hit_no_io stCached envOk "nfl.l.670188" sObj (by decide)

/-! ### C4 — missing or unparsable token file -/

/-- C4: for an uncached key, a missing or unparsable `tokens.json` makes
`getLeagueSettings` fail with the distinguishable wrapped
`Could not read tokens.json` error (the NotAuthenticated condition) rather
than an unhandled low-level error: the state is untouched and the trace
shows the one attempted file read and nothing else. -/
theorem getLeagueSettings_not_authenticated (σ : AppState) (env : Env) (key : String)
    (hc : σ.leagueCache.lookup key = none)
    (ht : σ.tokenFile = .missing ∨ σ.tokenFile = .corrupt) :
    (getLeagueSettings σ env key).result = .error .notAuthenticated ∧
    (getLeagueSettings σ env key).state = σ ∧
    (getLeagueSettings σ env key).trace = { tokenFileReads := 1 } := by
  have heq : getLeagueSettings σ env key = ⟨.error .notAuthenticated, σ, { tokenFileReads := 1 }⟩ := by
    rcases ht with ht | ht <;> (unfold getLeagueSettings; rw [hc, ht])
  rw [heq]
  exact ⟨rfl, rfl, rfl⟩

/-- C4 witness: a concrete run with a missing token file. -/
theorem getLeagueSettings_not_authenticated_witness :
    (getLeagueSettings stMissing envOk "nfl.l.670188").result = .error .notAuthenticated ∧
    (getLeagueSettings stMissing envOk "nfl.l.670188").state = stMissing ∧
    (getLeagueSettings stMissing envOk "nfl.l.670188").trace = { tokenFileReads := 1 } :=
  getLeagueSettings_not_authenticated stMissing envOk "nfl.l.670188" (by decide) (Or.inl rfl)

/-! ### C2 — exactly one refresh and one retry on a 401 -/

/-- C2: for an uncached key with a stored token file, a 401 on the first
GET triggers exactly one refresh (which, succeeding, persists the new
token set to `tokens.json`) and exactly one retried GET — the trace shows
one refresh call, two GETs and one token-file write whatever the retry
returns — and a second 401 surfaces as the propagated upstream 401 error
(the UpstreamAuthFailed condition) with no further refresh or retry. -/
theorem getLeagueSettings_refresh_retry_once (σ : AppState) (env : Env) (key : String)
    (ts nt : TokenSet)
    (hc : σ.leagueCache.lookup key = none)
    (ht : σ.tokenFile = .stored ts)
    (h1 : env.get1 = .httpErr 401)
    (hrn : env.refreshNet = .ok nt) :
    (getLeagueSettings σ env key).trace.refreshCalls = 1 ∧
    (getLeagueSettings σ env key).trace.upstreamGets = 2 ∧
    (getLeagueSettings σ env key).trace.tokenFileWrites = 1 ∧
    (getLeagueSettings σ env key).state.tokenFile = .stored nt ∧
    (env.get2 = .httpErr 401 →
      (getLeagueSettings σ env key).result = .error (.upstreamHttp 401)) := by
  have heq : getLeagueSettings σ env key =
      retryAfterRefresh σ env key ⟨.ok nt, .stored nt,
        { tokenFileReads := 1, tokenEndpointPosts := 1, tokenFileWrites := 1 }⟩ := by
    unfold getLeagueSettings
    rw [hc, ht, h1, hrn]
    rfl
  rw [heq]
  cases hg2 : env.get2 with
  | ok data =>
    rw [retryAfterRefresh_ok_get2_ok σ env key _ nt data rfl hg2]
    refine ⟨?_, ?_, ?_, ?_, fun h401 => ?_⟩
    · exact ((settleResponse_trace_inv _ _ _ _).1).trans rfl
    · exact ((settleResponse_trace_inv _ _ _ _).2.1).trans rfl
    · exact ((settleResponse_trace_inv _ _ _ _).2.2.1).trans rfl
    · exact ((settleResponse_trace_inv _ _ _ _).2.2.2).trans rfl
    · cases h401
  | httpErr status2 =>
    rw [retryAfterRefresh_ok_get2_http σ env key _ nt status2 rfl hg2]
    refine ⟨rfl, rfl, rfl, rfl, fun h401 => ?_⟩
    injection h401 with h2
    rw [h2]
  | netErr =>
    have heq2 : retryAfterRefresh σ env key ⟨.ok nt, .stored nt,
        { tokenFileReads := 1, tokenEndpointPosts := 1, tokenFileWrites := 1 }⟩ =
        ⟨.error .upstreamNet, { σ with tokenFile := .stored nt },
         traceAfterRetry { tokenFileReads := 1, tokenEndpointPosts := 1, tokenFileWrites := 1 }⟩ := by
      unfold retryAfterRefresh
      rw [hg2]
    rw [heq2]
    refine ⟨rfl, rfl, rfl, rfl, fun h401 => ?_⟩
    cases h401

/-- C2 witness: a concrete run in which both GETs answer 401. -/
theorem getLeagueSettings_refresh_retry_once_witness :
    (getLeagueSettings stBase env401Twice "nfl.l.670188").trace.refreshCalls = 1 ∧
    (getLeagueSettings stBase env401Twice "nfl.l.670188").trace.upstreamGets = 2 ∧
    (getLeagueSettings stBase env401Twice "nfl.l.670188").trace.tokenFileWrites = 1 ∧
    (getLeagueSettings stBase env401Twice "nfl.l.670188").state.tokenFile = .stored tsNew ∧
    (getLeagueSettings stBase env401Twice "nfl.l.670188").result = .error (.upstreamHttp 401) := by
  have h := getLeagueSettings_refresh_retry_once stBase env401Twice "nfl.l.670188"
    tsOld tsNew rfl rfl rfl rfl
  exact ⟨h.1, h.2.1, h.2.2.1, h.2.2.2.1, h.2.2.2.2 rfl⟩

/-! ### C6 — settings extraction from a 2xx response -/

/-- C6 counterexample: a 2xx envelope whose league array carries a
`settings` property holding an empty array.  No settings object can be
located in it, yet the call does not fail with the malformed-response
error (`No settings in response from Yahoo API`): the truthy empty array
passes the defensive check, the extracted value is `undefined`, and
`fs.writeFileSync('settings.json', JSON.stringify(undefined, null, 2))`
throws a TypeError instead — so the claim's dichotomy fails. -/
theorem getLeagueSettings_empty_settings_counterexample :
    findSettingsField dataEmptyArr = some (.arr []) ∧
    extractSettingsObj (.arr []) = none ∧
    (getLeagueSettings stBase envEmptyArr "nfl.l.670188").result = .error .settingsWriteTypeError ∧
    (getLeagueSettings stBase envEmptyArr "nfl.l.670188").result ≠ .error .noSettingsInResponse := by
  refine ⟨rfl, rfl, rfl, fun h => ?_⟩
  have h3 : (Except.error GLSError.settingsWriteTypeError : Except GLSError SettingsObj) =
      .error .noSettingsInResponse := h
  injection h3 with h4
  cases h4

/-- C6 (amended): on a 2xx settings response — whether it is the first GET
or the retried one — the call fails with the `No settings in response`
error exactly when no element of the league array carries a settings
value; when the located settings value is an empty array the call fails
with the write TypeError instead; otherwise the extracted settings object
(the first array element or the bare object, never the raw envelope) is
returned. -/
theorem getLeagueSettings_extraction_spec (σ : AppState) (env : Env) (key : String)
    (ts : TokenSet) (data : YahooData)
    (hc : σ.leagueCache.lookup key = none)
    (ht : σ.tokenFile = .stored ts)
    (hok : env.get1 = .ok data ∨
      (env.get1 = .httpErr 401 ∧ (∃ nt, env.refreshNet = .ok nt) ∧ env.get2 = .ok data)) :
    (findSettingsField data = none →
      (getLeagueSettings σ env key).result = .error .noSettingsInResponse) ∧
    (∀ sf, findSettingsField data = some sf → extractSettingsObj sf = none →
      (getLeagueSettings σ env key).result = .error .settingsWriteTypeError) ∧
    (∀ sf s, findSettingsField data = some sf → extractSettingsObj sf = some s →
      (getLeagueSettings σ env key).result = .ok s) := by
  have hred : ∃ σ1 tr, getLeagueSettings σ env key = settleResponse σ1 key data tr := by
    rcases hok with h1 | ⟨h1, ⟨nt, hrn⟩, h2⟩
    · refine ⟨σ, { tokenFileReads := 1, upstreamGets := 1 }, ?_⟩
      unfold getLeagueSettings
      rw [hc, ht, h1]
    · refine ⟨{ σ with tokenFile := .stored nt },
        traceAfterRetry { tokenFileReads := 1, tokenEndpointPosts := 1, tokenFileWrites := 1 }, ?_⟩
      have heq : getLeagueSettings σ env key =
          retryAfterRefresh σ env key ⟨.ok nt, .stored nt,
            { tokenFileReads := 1, tokenEndpointPosts := 1, tokenFileWrites := 1 }⟩ := by
        unfold getLeagueSettings
        rw [hc, ht, h1, hrn]
        rfl
      rw [heq]
      exact retryAfterRefresh_ok_get2_ok σ env key _ nt data rfl h2
  rcases hred with ⟨σ1, tr, heq⟩
  rw [heq]
  refine ⟨fun hf => ?_, fun sf hf he => ?_, fun sf s hf he => ?_⟩
  · rcases settleResponse_cases σ1 key data tr with ⟨_, h⟩ | ⟨sf2, hf2, _, h⟩ | ⟨sf2, s2, hf2, _, h⟩
    · rw [h]
    · rw [hf] at hf2
      cases hf2
    · rw [hf] at hf2
      cases hf2
  · rcases settleResponse_cases σ1 key data tr with ⟨hf2, h⟩ | ⟨sf2, hf2, he2, h⟩ | ⟨sf2, s2, hf2, he2, h⟩
    · rw [hf] at hf2
      cases hf2
    · rw [h]
    · rw [hf] at hf2
      injection hf2 with h3
      subst h3
      rw [he] at he2
      cases he2
  · rcases settleResponse_cases σ1 key data tr with ⟨hf2, h⟩ | ⟨sf2, hf2, he2, h⟩ | ⟨sf2, s2, hf2, he2, h⟩
    · rw [hf] at hf2
      cases hf2
    · rw [hf] at hf2
      injection hf2 with h3
      subst h3
      rw [he] at he2
      cases he2
    · rw [hf] at hf2
      injection hf2 with h3
      subst h3
      rw [he] at he2
      injection he2 with h4
      subst h4
      rw [h]

/-- C6 witness: a well-formed envelope on the first GET yields the
extracted object. -/
theorem getLeagueSettings_extraction_spec_witness :
    (getLeagueSettings stBase envOk "nfl.l.670188").result = .ok sObj :=
  (getLeagueSettings_extraction_spec stBase envOk "nfl.l.670188" tsOld dataGood
    rfl rfl (Or.inl rfl)).2.2 (.arr [sObj]) sObj rfl rfl

/-! ### C7 — the refresh operation's I/O -/

/-- C7 counterexample: `refreshTokens` itself reads `tokens.json` and, on
success, writes the new token set back to it — one file read and one file
write beyond the network call — so the claim that the refresh operation
performs no I/O beyond the single network call and leaves persistence to
the caller fails on the code. -/
theorem refreshTokens_file_io_counterexample :
    (refreshTokens (.stored tsOld) (.ok tsNew)).trace.tokenFileReads = 1 ∧
    (refreshTokens (.stored tsOld) (.ok tsNew)).trace.tokenFileWrites = 1 ∧
    (1 : Nat) ≠ 0 := by
  exact ⟨rfl, rfl, by decide⟩

/-- C7 (amended): `refreshTokens` always reads the token file once and
performs at most one network POST; on success it persists the returned
token set itself by writing the token file exactly once, and on failure it
writes nothing and leaves the file as it was.  It performs no settings
I/O and no upstream GET. -/
theorem refreshTokens_persists_itself (file : TokenFile) (net : RefreshNetResult) :
    (refreshTokens file net).trace.tokenFileReads = 1 ∧
    (refreshTokens file net).trace.upstreamGets = 0 ∧
    (refreshTokens file net).trace.settingsFileWrites = 0 ∧
    (refreshTokens file net).trace.tokenEndpointPosts ≤ 1 ∧
    (∀ nt, (refreshTokens file net).result = .ok nt →
      (refreshTokens file net).tokenFile = .stored nt ∧
      (refreshTokens file net).trace.tokenFileWrites = 1) ∧
    (∀ e, (refreshTokens file net).result = .error e →
      (refreshTokens file net).tokenFile = file ∧
      (refreshTokens file net).trace.tokenFileWrites = 0) := by
  cases file with
  | missing =>
    cases net <;>
      exact ⟨rfl, rfl, rfl, Nat.zero_le 1, fun nt h => (by cases h), fun e h => ⟨rfl, rfl⟩⟩
  | corrupt =>
    cases net <;>
      exact ⟨rfl, rfl, rfl, Nat.zero_le 1, fun nt h => (by cases h), fun e h => ⟨rfl, rfl⟩⟩
  | stored old =>
    cases net with
    | ok nt0 =>
      refine ⟨rfl, rfl, rfl, Nat.le_refl 1, fun nt h => ?_, fun e h => (by cases h)⟩
      injection h with h2
      subst h2
      exact ⟨rfl, rfl⟩
    | err =>
      exact ⟨rfl, rfl, rfl, Nat.le_refl 1, fun nt h => (by cases h), fun e h => ⟨rfl, rfl⟩⟩

/-- C7 witness: the successful refresh at concrete tokens persists the new
token set itself. -/
theorem refreshTokens_persists_itself_witness :
    (refreshTokens (.stored tsOld) (.ok tsNew)).tokenFile = .stored tsNew ∧
    (refreshTokens (.stored tsOld) (.ok tsNew)).trace.tokenFileWrites = 1 :=
  (refreshTokens_persists_itself (.stored tsOld) (.ok tsNew)).2.2.2.2.1 tsNew rfl

/-! ### C10 — shared state changes only on full success -/

/-- C10: on any failure `getLeagueSettings` leaves the in-memory cache and
the settings file exactly as they were (the token file may still have been
rewritten by the refresh), and on success the cache is extended with
precisely the extracted settings object that is returned — either it was
already cached and nothing changes, or the returned object is prepended
under the requested key and written to the settings file. -/
theorem getLeagueSettings_mutates_only_on_success (σ : AppState) (env : Env) (key : String) :
    (∀ e, (getLeagueSettings σ env key).result = .error e →
      (getLeagueSettings σ env key).state.leagueCache = σ.leagueCache ∧
      (getLeagueSettings σ env key).state.settingsFile = σ.settingsFile) ∧
    (∀ s, (getLeagueSettings σ env key).result = .ok s →
      ((getLeagueSettings σ env key).state.leagueCache = σ.leagueCache ∧
        (getLeagueSettings σ env key).state.settingsFile = σ.settingsFile) ∨
      ((getLeagueSettings σ env key).state.leagueCache = (key, s) :: σ.leagueCache ∧
        (getLeagueSettings σ env key).state.settingsFile = some s)) := by
  unfold getLeagueSettings
  split
  · exact ⟨fun e he => (by cases he), fun s hs => Or.inl ⟨rfl, rfl⟩⟩
  · split
    · exact ⟨fun e _ => ⟨rfl, rfl⟩, fun s hs => by cases hs⟩
    · exact ⟨fun e _ => ⟨rfl, rfl⟩, fun s hs => by cases hs⟩
    · split
      · exact ⟨(settleResponse_state_only _ _ _ _).1,
          fun s hs => Or.inr ((settleResponse_state_only _ _ _ _).2 s hs)⟩
      · exact ⟨fun e _ => ⟨rfl, rfl⟩, fun s hs => by cases hs⟩
      · split
        · exact ⟨(retryAfterRefresh_state_only _ _ _ _).1,
            fun s hs => Or.inr ((retryAfterRefresh_state_only _ _ _ _).2 s hs)⟩
        · exact ⟨fun e _ => ⟨rfl, rfl⟩, fun s hs => by cases hs⟩

/-- C10 witness: a failing run (missing token file) leaves cache and
settings file untouched. -/
theorem getLeagueSettings_mutates_only_on_success_witness :
    (getLeagueSettings stMissing envOk "nfl.l.670188").state.leagueCache = stMissing.leagueCache ∧
    (getLeagueSettings stMissing envOk "nfl.l.670188").state.settingsFile = stMissing.settingsFile :=
  (getLeagueSettings_mutates_only_on_success stMissing envOk "nfl.l.670188").1
    .notAuthenticated rfl
